import Mathlib

/-!
Verification of the durable event-delivery engine of the mindtest repository.

The engine lives in src/tracker.js (class Tracker, an IIFE-scoped browser
singleton).  This file is a shallow embedding of that class: the in-memory
tracker fields become a Lean structure, the browser storage becomes an
explicit `Env` record, network sends become Boolean oracles applied to the
exact JSON payload the code would transmit, and a JavaScript exception
escaping a method is modelled as `Except.error`.  JSON values are modelled
by the inductive `JsVal`; `JSON.stringify` is injective on such trees, so
payload equality is stated at the tree level.  Records built by `track`
only ever contain `JsVal` data, for which serialization is total, matching
the fact that `JSON.stringify` cannot fail on acyclic JSON data.
-/

/-- A JSON value, the data JSON.parse can produce and JSON.stringify can
consume.  Object fields keep their insertion order, as JavaScript does. -/
inductive JsVal where
  | null
  | bool (b : Bool)
  | num (n : Int)
  | str (s : String)
  | arr (elems : List JsVal)
  | obj (fields : List (String × JsVal))

/-- Array.isArray on a JSON value: true exactly on the arr constructor. -/
def JsVal.isArray : JsVal → Bool
  | .arr _ => true
  | _ => false

/-- Object.keys of a JSON object, in insertion order; [] on non-objects. -/
def JsVal.keys : JsVal → List String
  | .obj fields => fields.map (fun kv => kv.1)
  | _ => []

/-- JavaScript object spread / Object.assign semantics on field lists:
result keeps prev's keys in their order with values overridden by attrs
where present, then appends the keys of attrs that are new.  Models the
spread in setUserAttributes (tracker.js:130) and in the fallback payload
(tracker.js:223-236). -/
def jsAssign (prev attrs : List (String × JsVal)) : List (String × JsVal) :=
  prev.map (fun kv =>
    match attrs.lookup kv.1 with
    | some v => (kv.1, v)
    | none => kv)
  ++ attrs.filter (fun kv => (prev.lookup kv.1).isNone)

/-- The payload object built by Tracker.track (tracker.js:160-174).
userId and sessionId are the nullable instance fields; the context fields
are read from the browser at capture time and never recomputed. -/
structure EventRecord where
  event : String
  ts : String
  userId : Option String
  sessionId : Option String
  page : String
  url : String
  referrer : String
  userAgent : String
  screen : JsVal
  viewport : JsVal
  utm : JsVal
  userAttributes : List (String × JsVal)
  properties : List (String × JsVal)

/-- A nullable string serializes as a JSON string or JSON null. -/
def optStr : Option String → JsVal
  | some s => .str s
  | none => .null

/-- The JSON serialization of one EventRecord inside the batched payload:
exactly the thirteen fields of the object literal at tracker.js:160-174,
in source order. -/
def recordToJson (r : EventRecord) : JsVal :=
  .obj [("event", .str r.event), ("ts", .str r.ts),
        ("userId", optStr r.userId), ("sessionId", optStr r.sessionId),
        ("page", .str r.page), ("url", .str r.url),
        ("referrer", .str r.referrer), ("userAgent", .str r.userAgent),
        ("screen", r.screen), ("viewport", r.viewport), ("utm", r.utm),
        ("userAttributes", .obj r.userAttributes),
        ("properties", .obj r.properties)]

/-- The per-record legacy fallback payload built at tracker.js:221-237:
the record's own properties spread first, then the flattened context
fields (later keys override earlier ones, as in JavaScript). -/
def Tracker.singleJson (item : EventRecord) : JsVal :=
  .obj [("event", .str item.event),
        ("properties", .obj (jsAssign item.properties
          [("timestamp", .str item.ts),
           ("userId", optStr item.userId),
           ("sessionId", optStr item.sessionId),
           ("page", .str item.page),
           ("referrer", .str item.referrer),
           ("userAgent", .str item.userAgent),
           ("screen", item.screen),
           ("viewport", item.viewport),
           ("url", .str item.url),
           ("utm", item.utm),
           ("userAttributes", .obj item.userAttributes)]))]

/-- The primary-endpoint body: tracker.js:202-205 builds
JSON.stringify(Array.isArray(batch) ? \x7b batch \x7d : batch),
i.e. the batch-wrapped object when the argument is an array and the bare
value otherwise. -/
def flushBody (v : JsVal) : JsVal :=
  if v.isArray then .obj [("batch", v)] else v

/-- this.config as set up by the constructor (tracker.js:39-46) and merged
into by configure.  cfgBackoffBase models the config.backoffBase key that
Object.assign would add if configure is passed one; the constructor does
not create it and no method reads it. -/
structure Config where
  eventsEndpoint : String
  resultEndpoint : String
  fallbackEndpoint : String
  flushIntervalMs : Nat
  maxBatchSize : Nat
  maxRetries : Nat
  cfgBackoffBase : Option Nat

/-- An options object passed to configure: a key is present (some) or
absent (none).  Object.assign copies exactly the present keys. -/
structure ConfigOpts where
  eventsEndpoint : Option String := none
  resultEndpoint : Option String := none
  fallbackEndpoint : Option String := none
  flushIntervalMs : Option Nat := none
  maxBatchSize : Option Nat := none
  maxRetries : Option Nat := none
  backoffBase : Option Nat := none

/-- The mutable instance fields of class Tracker (tracker.js:37-55),
plus two ghost histories used only to state scheduling properties:
scheduledDelays records every delay passed to setTimeout when arming or
rescheduling the retry tick, and fallbackSends records every payload
handed to the fallback endpoint.  retryTimer is whether this.retryTimer
currently holds a timer handle; flushTimer is the period installed by
setInterval in init; retryAttempt is the tick closure's attempt counter
(tracker.js:322). -/
structure TrackerState where
  config : Config
  userId : Option String
  sessionId : Option String
  isInitialized : Bool
  queue : List EventRecord
  retryTimer : Bool
  flushTimer : Option Nat
  backoffBase : Nat
  retryAttempt : Nat
  scheduledDelays : List Nat
  fallbackSends : List JsVal

/-- The browser storage visible to the tracker.  lsPending holds the
persisted pending-queue snapshot, already decoded (the only writer is
_persistQueue, which stores JSON.stringify of a record list, so the
snapshot round-trips; the untyped rehydration branch of init is modelled
separately by rehydrateQueue).  setItemOk is whether a storage write
succeeds; a failing localStorage.setItem throws in JavaScript. -/
structure Env where
  lsUserId : Option String
  ssSessionId : Option String
  lsPending : Option (List EventRecord)
  lsUserAttrs : Option (List (String × JsVal))
  setItemOk : Bool

/-- The constructor (tracker.js:37-55).  The three resolved endpoint URLs
come from the external endpoint resolver and are taken as parameters;
the numeric defaults are the literals of tracker.js:43-45 and 54. -/
def Tracker.new (eventsEp resultEp fallbackEp : String) : TrackerState :=
  { config := { eventsEndpoint := eventsEp, resultEndpoint := resultEp,
                fallbackEndpoint := fallbackEp, flushIntervalMs := 5000,
                maxBatchSize := 10, maxRetries := 3, cfgBackoffBase := none },
    userId := none, sessionId := none, isInitialized := false, queue := [],
    retryTimer := false, flushTimer := none, backoffBase := 1200,
    retryAttempt := 0, scheduledDelays := [], fallbackSends := [] }

/-- configure (tracker.js:58-60): Object.assign(this.config, opts); each
key present in opts replaces the config entry, absent keys keep their
value.  A backoffBase key lands in the config object (cfgBackoffBase);
the instance field backoffBase is untouched. -/
def Tracker.configure (st : TrackerState) (opts : ConfigOpts) : TrackerState :=
  { st with config :=
    { eventsEndpoint := opts.eventsEndpoint.getD st.config.eventsEndpoint,
      resultEndpoint := opts.resultEndpoint.getD st.config.resultEndpoint,
      fallbackEndpoint := opts.fallbackEndpoint.getD st.config.fallbackEndpoint,
      flushIntervalMs := opts.flushIntervalMs.getD st.config.flushIntervalMs,
      maxBatchSize := opts.maxBatchSize.getD st.config.maxBatchSize,
      maxRetries := opts.maxRetries.getD st.config.maxRetries,
      cfgBackoffBase :=
        match opts.backoffBase with
        | some b => some b
        | none => st.config.cfgBackoffBase } }

/-- getUserId (tracker.js:124). -/
def Tracker.getUserId (st : TrackerState) : Option String := st.userId

/-- getSessionId (tracker.js:125). -/
def Tracker.getSessionId (st : TrackerState) : Option String := st.sessionId

/-- _getUserAttrs (tracker.js:308-311): parse the stored attribute map,
empty object when absent or unparseable (the try/catch swallows). -/
def Tracker.getUserAttrs (env : Env) : List (String × JsVal) :=
  env.lsUserAttrs.getD []

/-- _persistQueue (tracker.js:314-317): try to store the queue snapshot;
a storage failure is swallowed and the snapshot is simply left stale. -/
def Tracker.persistQueue (st : TrackerState) (env : Env) : Env :=
  if env.setItemOk then { env with lsPending := some st.queue } else env

/-- The tail of init after both identifiers are assigned
(tracker.js:89-101): rehydrate the queue from the persisted snapshot
(try/catch: a corrupt snapshot yields the empty queue), mark the engine
initialized, and install the periodic flush timer.  The browser event
listeners registered afterwards are outside the model. -/
def Tracker.initFinish (st : TrackerState) (env : Env) : TrackerState × Env :=
  ({ st with
      queue := env.lsPending.getD [],
      isInitialized := true,
      flushTimer := some st.config.flushIntervalMs }, env)

/-- The sessionId block of init (tracker.js:77-82): return the stored
session identifier, otherwise generate sess_<now>_<rand> and persist it.
sessionStorage.setItem is not guarded, so a failing write throws. -/
def Tracker.initSession (st : TrackerState) (env : Env) (now : Nat)
    (randS : String) : Except Unit (TrackerState × Env) :=
  match env.ssSessionId with
  | some sid => .ok (Tracker.initFinish { st with sessionId := some sid } env)
  | none =>
      if env.setItemOk then
        let sid := "sess_" ++ toString now ++ "_" ++ randS
        .ok (Tracker.initFinish { st with sessionId := some sid }
              { env with ssSessionId := some sid })
      else .error ()

/-- init (tracker.js:63-121).  now is Date.now(); randU and randS are the
rand(8) and rand(6) outputs.  The userId block runs first
(tracker.js:69-74): return the stored identifier, otherwise generate
user_<now>_<rand> and persist it; localStorage.setItem is not guarded,
so a failing write throws out of init. -/
def Tracker.init (st : TrackerState) (env : Env) (now : Nat)
    (randU randS : String) : Except Unit (TrackerState × Env) :=
  if st.isInitialized then .ok (st, env)
  else
    match env.lsUserId with
    | some uid =>
        Tracker.initSession { st with userId := some uid } env now randS
    | none =>
        if env.setItemOk then
          let uid := "user_" ++ toString now ++ "_" ++ randU
          Tracker.initSession { st with userId := some uid }
            { env with lsUserId := some uid } now randS
        else .error ()

/-- The ambient browser context read by track at capture time
(tracker.js:165-171). -/
structure Context where
  page : String
  url : String
  referrer : String
  userAgent : String
  screen : JsVal
  viewport : JsVal
  utm : JsVal

/-- track (tracker.js:154-187): auto-init when needed (an exception from
init propagates), build the payload, append it to the queue, persist
best-effort, and report whether the size threshold would trigger an
immediate flush.  The gtag call is wrapped in try/catch in the source and
has no observable effect on the engine. -/
def Tracker.track (st : TrackerState) (env : Env) (eventName : String)
    (properties : List (String × JsVal)) (ctx : Context) (ts : String)
    (now : Nat) (randU randS : String) :
    Except Unit (TrackerState × Env × Bool) :=
  match (if st.isInitialized then .ok (st, env)
         else Tracker.init st env now randU randS) with
  | .error e => .error e
  | .ok (st0, env0) =>
      let payload : EventRecord :=
        { event := eventName, ts := ts, userId := st0.userId,
          sessionId := st0.sessionId, page := ctx.page, url := ctx.url,
          referrer := ctx.referrer, userAgent := ctx.userAgent,
          screen := ctx.screen, viewport := ctx.viewport, utm := ctx.utm,
          userAttributes := Tracker.getUserAttrs env0,
          properties := properties }
      let st1 := { st0 with queue := st0.queue ++ [payload] }
      let env1 := Tracker.persistQueue st1 env0
      .ok (st1, env1, decide (st1.config.maxBatchSize ≤ st1.queue.length))

/-- setUserAttributes (tracker.js:128-133): shallow-merge into the stored
attribute map, persist the merge (an unguarded setItem), then track a
user_attributes event whose properties carry the raw attrs argument. -/
def Tracker.setUserAttributes (st : TrackerState) (env : Env)
    (attrs : List (String × JsVal)) (ctx : Context) (ts : String)
    (now : Nat) (randU randS : String) :
    Except Unit (TrackerState × Env × Bool) :=
  let prev := Tracker.getUserAttrs env
  let next := jsAssign prev attrs
  if env.setItemOk then
    Tracker.track st { env with lsUserAttrs := some next }
      "user_attributes" [("attributes", JsVal.obj attrs)] ctx ts now randU randS
  else .error ()

/-- The batch-removal step of flush (tracker.js:199-200):
this.queue.splice(0, this.config.maxBatchSize) followed by
_persistQueue().  Returns the removed batch with the updated tracker and
storage; both happen before any network call. -/
def Tracker.takeBatch (st : TrackerState) (env : Env) :
    List EventRecord × TrackerState × Env :=
  let batch := st.queue.take st.config.maxBatchSize
  let st1 := { st with queue := st.queue.drop st.config.maxBatchSize }
  let env1 := Tracker.persistQueue st1 env
  (batch, st1, env1)

/-- _scheduleRetry (tracker.js:320-338): a no-op while this.retryTimer
holds a handle; otherwise create the tick closure with attempt = 0 and
schedule its first run after this.backoffBase milliseconds. -/
def Tracker.scheduleRetry (st : TrackerState) : TrackerState :=
  if st.retryTimer then st
  else { st with retryTimer := true, retryAttempt := 0,
                 scheduledDelays := st.scheduledDelays ++ [st.backoffBase] }

/-- The per-record fallback loop of flush (tracker.js:219-248): for each
batch item in order, serialize the legacy payload and send it to the
fallback endpoint (fb is the transport outcome for that payload); on
failure push the identical record to the tail of the queue, persist, and
arm the retry scheduler.  The inner try/catch swallows each failure, so
the loop always runs to completion. -/
def Tracker.fallbackLoop (fb : JsVal → Bool) :
    List EventRecord → TrackerState → Env → TrackerState × Env
  | [], st, env => (st, env)
  | item :: rest, st, env =>
      let st0 := { st with
        fallbackSends := st.fallbackSends ++ [Tracker.singleJson item] }
      if fb (Tracker.singleJson item) then Tracker.fallbackLoop fb rest st0 env
      else
        let st1 := { st0 with queue := st0.queue ++ [item] }
        let env1 := Tracker.persistQueue st1 env
        let st2 := Tracker.scheduleRetry st1
        Tracker.fallbackLoop fb rest st2 env1

/-- flush (tracker.js:190-250).  prim and fb are the transport outcomes
of _sendWithBestEffort for the primary and fallback endpoints, as
functions of the exact payload sent (_sendWithBestEffort catches its own
fetch errors and returns a Boolean, tracker.js:253-294).  flush returns
Except to model a JavaScript rejection, but every failure inside its body
is caught: the primary-endpoint throw at tracker.js:213 lands in the
catch at 216, and each fallback failure lands in the inner catch at 241,
so no error branch below ever constructs Except.error. -/
def Tracker.flush (st : TrackerState) (env : Env) (prim fb : JsVal → Bool) :
    Except Unit (TrackerState × Env) :=
  if st.queue.isEmpty then .ok (st, env)
  else
    let r := Tracker.takeBatch st env
    let batch := r.1
    let body := flushBody (JsVal.arr (batch.map recordToJson))
    if prim body then .ok (r.2.1, r.2.2)
    else .ok (Tracker.fallbackLoop fb batch r.2.1 r.2.2)

/-- One run of the retry tick closure (tracker.js:323-336): increment the
attempt counter, await this.flush(); when the flush resolves, clear the
timer handle.  The catch branch is the source's only reschedule site: it
would stop once attempt reaches config.maxRetries and otherwise reschedule
after backoffBase * 2 ^ attempt; it is reachable only if flush rejects. -/
def Tracker.retryTick (st : TrackerState) (env : Env)
    (prim fb : JsVal → Bool) : TrackerState × Env :=
  let a := st.retryAttempt + 1
  let st0 := { st with retryAttempt := a }
  match Tracker.flush st0 env prim fb with
  | .ok (st1, env1) => ({ st1 with retryTimer := false }, env1)
  | .error _ =>
      if st0.config.maxRetries ≤ a then ({ st0 with retryTimer := false }, env)
      else ({ st0 with
        scheduledDelays := st0.scheduledDelays ++ [st0.backoffBase * 2 ^ a] },
        env)

/-- The queue-rehydration branch of init (tracker.js:89-95), kept untyped:
this.queue = JSON.parse(localStorage.getItem(pending) or the literal
empty-array text when the item is null or empty), with the catch setting
this.queue = [].  The argument is the stored value represented by its
JSON.parse outcome: none when the key is absent, some none when the
stored text does not parse, some (some v) when it parses to v.  Whatever
v parses to — array or not — is installed as this.queue unvalidated. -/
def rehydrateQueue : Option (Option JsVal) → JsVal
  | none => .arr []
  | some none => .arr []
  | some (some v) => v

/-! ## Helper lemmas -/

/-- _scheduleRetry leaves the queue, identifiers, configuration, backoff
base and fallback-send history untouched, and afterwards a timer handle is
always present. -/
theorem scheduleRetry_fields (st : TrackerState) :
    (Tracker.scheduleRetry st).queue = st.queue ∧
    (Tracker.scheduleRetry st).retryTimer = true ∧
    (Tracker.scheduleRetry st).userId = st.userId ∧
    (Tracker.scheduleRetry st).sessionId = st.sessionId ∧
    (Tracker.scheduleRetry st).config = st.config ∧
    (Tracker.scheduleRetry st).backoffBase = st.backoffBase ∧
    (Tracker.scheduleRetry st).fallbackSends = st.fallbackSends := by
  unfold Tracker.scheduleRetry
  split <;> simp_all

/-- The records of a batch whose fallback send fails, in batch order. -/
def failedOf (fb : JsVal → Bool) (batch : List EventRecord) : List EventRecord :=
  batch.filter (fun it => !(fb (Tracker.singleJson it)))

/-- The source flush catches every failure inside its own body, so the
Promise it returns always resolves: no input makes the model construct
Except.error. -/
theorem flush_never_rejects (st : TrackerState) (env : Env)
    (prim fb : JsVal → Bool) :
    ∃ p, Tracker.flush st env prim fb = .ok p := by
  unfold Tracker.flush
  split
  · exact ⟨_, rfl⟩
  · dsimp only
    split <;> exact ⟨_, rfl⟩

/-! ## Concrete sample inputs used by witnesses and counterexamples -/

/-- A concrete, ordinary (JSON-serializable) event record. -/
def recA : EventRecord :=
  { event := "a", ts := "t1", userId := some "u", sessionId := some "s",
    page := "/p", url := "http://x/p", referrer := "", userAgent := "ua",
    screen := .obj [], viewport := .obj [], utm := .obj [],
    userAttributes := [], properties := [] }

/-- A second concrete event record. -/
def recB : EventRecord :=
  { event := "b", ts := "t2", userId := some "u", sessionId := some "s",
    page := "/p", url := "http://x/p", referrer := "", userAgent := "ua",
    screen := .obj [], viewport := .obj [], utm := .obj [],
    userAttributes := [], properties := [] }

/-- A concrete capture-time browser context. -/
def ctx0 : Context :=
  { page := "/p", url := "http://x/p", referrer := "", userAgent := "ua",
    screen := .obj [], viewport := .obj [], utm := .obj [] }

/-- Storage with both identifiers persisted and working writes. -/
def envOk : Env :=
  { lsUserId := some "u", ssSessionId := some "s", lsPending := none,
    lsUserAttrs := none, setItemOk := true }

/-- Empty storage whose writes fail (e.g. quota exceeded). -/
def envNoStore : Env :=
  { lsUserId := none, ssSessionId := none, lsPending := none,
    lsUserAttrs := none, setItemOk := false }

/-- An initialized tracker holding one queued record. -/
def stC1 : TrackerState :=
  { Tracker.new "e" "r" "f" with
      isInitialized := true,
      userId := some "u",
      sessionId := some "s",
      queue := [recA],
      flushTimer := some 5000 }

/-- Storage matching stC1. -/
def envC1 : Env :=
  { lsUserId := some "u", ssSessionId := some "s", lsPending := some [recA],
    lsUserAttrs := none, setItemOk := true }

/-- Both transports failing on every attempt. -/
def pFail : JsVal → Bool := fun _ => false

/-- The tracker and storage after the first failed flush of stC1 (the
flush always resolves, so the Except is discharged by getD). -/
def flushC1 : TrackerState × Env :=
  (Tracker.flush stC1 envC1 pFail pFail).toOption.getD (stC1, envC1)

/-- The tracker and storage after the one retry tick that the armed
scheduler ever runs. -/
def tickC1 : TrackerState × Env :=
  Tracker.retryTick flushC1.1 flushC1.2 pFail pFail

/-! ## Claim theorems -/

/-- C1: the retry scheduler does not behave as claimed.  Run the failing
scenario: an initialized tracker with one queued record, both endpoints
failing on every attempt.  The first failed flush arms the retry timer
with the single delay backoffBase = 1200 ms and attempt counter 0.  When
that tick fires, its flush again leaves the record queued and the new
attempt count 1 is below maxRetries = 3, yet the tick clears the timer
handle and appends no new delay: the exponential backoffBase * 2 ^ attempt
reschedule (reachable only from the catch of an awaited flush rejection,
which never happens) does not occur, so no second tick is ever
scheduled. -/
theorem retry_tick_never_reschedules :
    Tracker.flush stC1 envC1 pFail pFail = .ok flushC1 ∧
    flushC1.1.queue = [recA] ∧
    flushC1.1.retryTimer = true ∧
    flushC1.1.retryAttempt = 0 ∧
    flushC1.1.scheduledDelays = [1200] ∧
    tickC1.1.queue = [recA] ∧
    tickC1.1.retryAttempt = 1 ∧
    1 < tickC1.1.config.maxRetries ∧
    tickC1.1.retryTimer = false ∧
    tickC1.1.scheduledDelays = [1200] := by
  exact ⟨rfl, rfl, rfl, rfl, rfl, rfl, rfl, by decide, rfl, rfl⟩

/-- C4: the primary payload is always the batch-wrapped object.  The value
taken by a flush is the array of serialized records, Array.isArray holds
of it, so the conditional at tracker.js:202-205 always produces the
object with the single key batch; the bare-array branch is unreachable.
Each serialized record carries exactly the thirteen documented fields. -/
theorem flush_primary_payload_batch_wrapped (batch : List EventRecord)
    (r : EventRecord) (st : TrackerState) (env : Env) :
    JsVal.isArray (JsVal.arr (batch.map recordToJson)) = true ∧
    flushBody (JsVal.arr (batch.map recordToJson))
      = JsVal.obj [("batch", JsVal.arr (batch.map recordToJson))] ∧
    (recordToJson r).keys
      = ["event", "ts", "userId", "sessionId", "page", "url", "referrer",
         "userAgent", "screen", "viewport", "utm", "userAttributes",
         "properties"] ∧
    (Tracker.takeBatch st env).1 = st.queue.take st.config.maxBatchSize := by
  exact ⟨rfl, rfl, rfl, rfl⟩

/-- C5 counterexample: a persisted value that is valid JSON but not an
array — the object produced by parsing the stored text \x7b\x7d — is not
discarded: rehydration installs it as the queue instead of the empty
array the claim requires. -/
theorem rehydrate_keeps_nonarray_json :
    rehydrateQueue (some (some (JsVal.obj []))) = JsVal.obj [] ∧
    JsVal.isArray (JsVal.obj []) = false ∧
    rehydrateQueue (some (some (JsVal.obj []))) ≠ JsVal.arr [] := by
  refine ⟨rfl, rfl, fun h => ?_⟩
  exact JsVal.noConfusion h

/-- C5 amended: rehydration discards exactly the parse failures.  A
missing or unparseable persisted value yields the empty queue; any value
that parses — array or not — is installed unvalidated. -/
theorem rehydrate_discards_only_parse_failures (v : JsVal) :
    rehydrateQueue none = JsVal.arr [] ∧
    rehydrateQueue (some none) = JsVal.arr [] ∧
    rehydrateQueue (some (some v)) = v := by
  exact ⟨rfl, rfl, rfl⟩

/-- C8 counterexample: passing a backoffBase override to configure does
not change the backoff base the retry scheduler uses.  After
configure with backoffBase 5000, the instance field is still 1200 and
arming the scheduler still schedules the first tick after 1200 ms. -/
theorem configure_cannot_tune_backoff :
    (Tracker.configure (Tracker.new "e" "r" "f")
        { backoffBase := some 5000 }).backoffBase = 1200 ∧
    (Tracker.scheduleRetry (Tracker.configure (Tracker.new "e" "r" "f")
        { backoffBase := some 5000 })).scheduledDelays = [1200] ∧
    (1200 : Nat) ≠ 5000 := by
  exact ⟨rfl, rfl, by decide⟩

/-- The fallback loop never touches the identity fields. -/
theorem fallbackLoop_ids (fb : JsVal → Bool) (batch : List EventRecord) :
    ∀ (st : TrackerState) (env : Env),
      (Tracker.fallbackLoop fb batch st env).1.userId = st.userId ∧
      (Tracker.fallbackLoop fb batch st env).1.sessionId = st.sessionId := by
  induction batch with
  | nil => intro st env; exact ⟨rfl, rfl⟩
  | cons item rest ih =>
      intro st env
      by_cases hfb : fb (Tracker.singleJson item) = true <;>
        simp only [Tracker.fallbackLoop, hfb, if_true, if_false,
          Bool.false_eq_true, ite_false, ite_true] <;>
        [skip; skip] <;>
        first
        | exact ih _ _
        | · obtain ⟨h1, h2⟩ := ih (Tracker.scheduleRetry
              { st with
                  fallbackSends := st.fallbackSends ++ [Tracker.singleJson item],
                  queue := st.queue ++ [item] }) (Tracker.persistQueue _ env)
            constructor
            · rw [h1]; exact (scheduleRetry_fields _).2.2.1
            · rw [h2]; exact (scheduleRetry_fields _).2.2.2.1

/-- Full behaviour of the fallback loop when storage writes succeed: every
batch item is sent once, in batch order; exactly the failing items are
appended — unchanged — to the tail of the queue; after any requeue the
persisted snapshot equals the final queue and the retry scheduler is
armed; when nothing fails, neither the storage nor the retry state is
touched. -/
theorem fallbackLoop_spec (fb : JsVal → Bool) (batch : List EventRecord) :
    ∀ (st : TrackerState) (env : Env), env.setItemOk = true →
      (Tracker.fallbackLoop fb batch st env).1.queue
          = st.queue ++ failedOf fb batch ∧
      (Tracker.fallbackLoop fb batch st env).1.fallbackSends
          = st.fallbackSends ++ batch.map Tracker.singleJson ∧
      (Tracker.fallbackLoop fb batch st env).2.setItemOk = true ∧
      (failedOf fb batch = [] →
        (Tracker.fallbackLoop fb batch st env).2 = env ∧
        (Tracker.fallbackLoop fb batch st env).1.retryTimer = st.retryTimer) ∧
      (failedOf fb batch ≠ [] →
        (Tracker.fallbackLoop fb batch st env).2.lsPending
            = some (Tracker.fallbackLoop fb batch st env).1.queue ∧
        (Tracker.fallbackLoop fb batch st env).1.retryTimer = true) := by
  induction batch with
  | nil =>
      intro st env h
      refine ⟨by simp [Tracker.fallbackLoop, failedOf], ?_, h, ?_, ?_⟩
      · simp [Tracker.fallbackLoop]
      · exact fun _ => ⟨rfl, rfl⟩
      · intro hne; exact absurd rfl hne
  | cons item rest ih =>
      intro st env h
      by_cases hfb : fb (Tracker.singleJson item) = true
      · -- the fallback send for item succeeds: item is dropped, loop on rest
        have hfail : failedOf fb (item :: rest) = failedOf fb rest := by
          simp [failedOf, hfb]
        have hstep : Tracker.fallbackLoop fb (item :: rest) st env
            = Tracker.fallbackLoop fb rest
                { st with fallbackSends :=
                    st.fallbackSends ++ [Tracker.singleJson item] } env := by
          simp [Tracker.fallbackLoop, hfb]
        obtain ⟨hq, hs, ho, hemp, hne⟩ :=
          ih { st with fallbackSends :=
                  st.fallbackSends ++ [Tracker.singleJson item] } env h
        rw [hstep, hfail]
        refine ⟨by simpa using hq, by simpa using hs, ho, ?_, hne⟩
        intro he
        exact ⟨(hemp he).1, (hemp he).2⟩
      · -- the fallback send for item fails: requeue, persist, arm, loop
        have hfb' : fb (Tracker.singleJson item) = false := by
          simpa using hfb
        have hfail : failedOf fb (item :: rest) = item :: failedOf fb rest := by
          simp [failedOf, hfb']
        have hstep : Tracker.fallbackLoop fb (item :: rest) st env
            = Tracker.fallbackLoop fb rest
                (Tracker.scheduleRetry
                  { st with
                      fallbackSends :=
                        st.fallbackSends ++ [Tracker.singleJson item],
                      queue := st.queue ++ [item] })
                { env with lsPending := some (st.queue ++ [item]) } := by
          simp [Tracker.fallbackLoop, hfb', Tracker.persistQueue, h]
        obtain ⟨hsq, hsrt, hsu, hss, hscfg, hsbb, hsfs⟩ :=
          scheduleRetry_fields
            { st with
                fallbackSends := st.fallbackSends ++ [Tracker.singleJson item],
                queue := st.queue ++ [item] }
        obtain ⟨hq, hs, ho, hemp, hne⟩ :=
          ih (Tracker.scheduleRetry
                { st with
                    fallbackSends :=
                      st.fallbackSends ++ [Tracker.singleJson item],
                    queue := st.queue ++ [item] })
             { env with lsPending := some (st.queue ++ [item]) } (by simpa using h)
        rw [hstep, hfail]
        refine ⟨?_, ?_, ho, ?_, fun _ => ?_⟩
        · rw [hq, hsq]; simp
        · rw [hs, hsfs]; simp
        · intro he; exact absurd he (List.cons_ne_nil _ _)
        · by_cases hrest : failedOf fb rest = []
          · obtain ⟨he1, he2⟩ := hemp hrest
            rw [he1, he2, hsrt, hq, hsq, hrest]
            simp
          · exact hne hrest

/-- C2: a flush on a non-empty queue removes its batch (up to maxBatchSize
records from the head) from the in-memory queue and persists the
shortened queue, both inside takeBatch and hence before flush consults
any transport; a second flush started on the resulting state takes its
batch from the remaining records only, so the two batches and the final
remainder partition the original queue — no record is owned twice. -/
theorem takeBatch_removes_and_persists_before_send (st : TrackerState)
    (env : Env) (hq : st.queue ≠ []) (hio : env.setItemOk = true) :
    (Tracker.takeBatch st env).1 = st.queue.take st.config.maxBatchSize ∧
    (Tracker.takeBatch st env).2.1.queue
        = st.queue.drop st.config.maxBatchSize ∧
    (Tracker.takeBatch st env).2.2.lsPending
        = some (st.queue.drop st.config.maxBatchSize) ∧
    (Tracker.takeBatch (Tracker.takeBatch st env).2.1
        (Tracker.takeBatch st env).2.2).1
        = (st.queue.drop st.config.maxBatchSize).take st.config.maxBatchSize ∧
    (Tracker.takeBatch st env).1
      ++ ((Tracker.takeBatch (Tracker.takeBatch st env).2.1
            (Tracker.takeBatch st env).2.2).1
          ++ (Tracker.takeBatch (Tracker.takeBatch st env).2.1
                (Tracker.takeBatch st env).2.2).2.1.queue)
        = st.queue := by
  refine ⟨rfl, rfl, by simp [Tracker.takeBatch, Tracker.persistQueue, hio],
    rfl, ?_⟩
  simp [Tracker.takeBatch, List.take_append_drop]

/-- C3: for a flushed batch, a successful primary send requeues nothing;
on primary failure every batch record is handed to the fallback endpoint
once, in batch (FIFO) order, the records whose fallback send fails — and
only those — are appended unchanged to the tail of the queue, the
persisted snapshot matches the queue afterwards, and the retry scheduler
is armed exactly when some record was requeued. -/
theorem flush_fallback_and_requeue (st : TrackerState) (env : Env)
    (prim fb : JsVal → Bool) (hq : st.queue ≠ []) (hio : env.setItemOk = true) :
    ∃ st' env', Tracker.flush st env prim fb = .ok (st', env') ∧
      (prim (flushBody (JsVal.arr
            ((st.queue.take st.config.maxBatchSize).map recordToJson))) = true →
          st'.queue = st.queue.drop st.config.maxBatchSize ∧
          st'.fallbackSends = st.fallbackSends ∧
          st'.retryTimer = st.retryTimer ∧
          env'.lsPending = some st'.queue) ∧
      (prim (flushBody (JsVal.arr
            ((st.queue.take st.config.maxBatchSize).map recordToJson))) = false →
          st'.queue = st.queue.drop st.config.maxBatchSize
              ++ failedOf fb (st.queue.take st.config.maxBatchSize) ∧
          st'.fallbackSends = st.fallbackSends
              ++ (st.queue.take st.config.maxBatchSize).map Tracker.singleJson ∧
          env'.lsPending = some st'.queue ∧
          (failedOf fb (st.queue.take st.config.maxBatchSize) = [] →
              st'.retryTimer = st.retryTimer) ∧
          (failedOf fb (st.queue.take st.config.maxBatchSize) ≠ [] →
              st'.retryTimer = true)) := by
  have hne : st.queue.isEmpty = false := by
    cases hqq : st.queue with
    | nil => exact absurd hqq hq
    | cons a l => rfl
  by_cases hp : prim (flushBody (JsVal.arr
      ((st.queue.take st.config.maxBatchSize).map recordToJson))) = true
  · refine ⟨{ st with queue := st.queue.drop st.config.maxBatchSize },
      Tracker.persistQueue
        { st with queue := st.queue.drop st.config.maxBatchSize } env,
      ?_, ?_, ?_⟩
    · unfold Tracker.flush Tracker.takeBatch
      rw [hne]
      simp only [Bool.false_eq_true, if_false]
      rw [if_pos hp]
    · intro _
      exact ⟨rfl, rfl, rfl, by simp [Tracker.persistQueue, hio]⟩
    · intro hcontra
      rw [hp] at hcontra
      exact absurd hcontra (by simp)
  · have hp' : prim (flushBody (JsVal.arr
        ((st.queue.take st.config.maxBatchSize).map recordToJson))) = false := by
      simpa using hp
    have hio1 : (Tracker.persistQueue
        { st with queue := st.queue.drop st.config.maxBatchSize } env).setItemOk
        = true := by
      simp [Tracker.persistQueue, hio]
    obtain ⟨hq1, hs1, ho1, hemp1, hne1⟩ :=
      fallbackLoop_spec fb (st.queue.take st.config.maxBatchSize)
        { st with queue := st.queue.drop st.config.maxBatchSize }
        (Tracker.persistQueue
          { st with queue := st.queue.drop st.config.maxBatchSize } env) hio1
    have hflush : Tracker.flush st env prim fb
        = .ok (Tracker.fallbackLoop fb (st.queue.take st.config.maxBatchSize)
            { st with queue := st.queue.drop st.config.maxBatchSize }
            (Tracker.persistQueue
              { st with queue := st.queue.drop st.config.maxBatchSize } env)) := by
      unfold Tracker.flush Tracker.takeBatch
      rw [hne]
      simp only [Bool.false_eq_true, if_false]
      rw [if_neg (fun h => by rw [h] at hp'; exact Bool.noConfusion hp')]
    refine ⟨(Tracker.fallbackLoop fb (st.queue.take st.config.maxBatchSize)
        { st with queue := st.queue.drop st.config.maxBatchSize }
        (Tracker.persistQueue
          { st with queue := st.queue.drop st.config.maxBatchSize } env)).1,
      (Tracker.fallbackLoop fb (st.queue.take st.config.maxBatchSize)
        { st with queue := st.queue.drop st.config.maxBatchSize }
        (Tracker.persistQueue
          { st with queue := st.queue.drop st.config.maxBatchSize } env)).2,
      ?_, ?_, ?_⟩
    · exact hflush
    · intro hcontra
      rw [hp'] at hcontra
      exact absurd hcontra (by simp)
    · intro _
      refine ⟨by simpa using hq1, by simpa using hs1, ?_, ?_, ?_⟩
      · by_cases hrest : failedOf fb (st.queue.take st.config.maxBatchSize) = []
        · obtain ⟨he1, he2⟩ := hemp1 hrest
          rw [he1, hq1, hrest]
          simp [Tracker.persistQueue, hio]
        · exact (hne1 hrest).1
      · intro hrest
        exact (hemp1 hrest).2
      · intro hrest
        exact (hne1 hrest).2

/-- The identifier init ends up using: the stored one when present,
otherwise the freshly generated user token. -/
def uidOf (env : Env) (now : Nat) (randU : String) : String :=
  match env.lsUserId with
  | some u => u
  | none => "user_" ++ toString now ++ "_" ++ randU

/-- The session identifier init ends up using: the stored one when
present, otherwise the freshly generated session token. -/
def sidOf (env : Env) (now : Nat) (randS : String) : String :=
  match env.ssSessionId with
  | some s => s
  | none => "sess_" ++ toString now ++ "_" ++ randS

/-- Closed form of init on an uninitialized tracker when storage writes
succeed: both identifiers are resolved (stored value kept, missing value
generated and persisted), the queue is rehydrated, the engine is marked
initialized and the periodic flush timer installed. -/
theorem init_spec (st : TrackerState) (env : Env) (now : Nat)
    (ru rs : String) (hini : st.isInitialized = false)
    (hio : env.setItemOk = true) :
    Tracker.init st env now ru rs = .ok
      ({ st with userId := some (uidOf env now ru),
                 sessionId := some (sidOf env now rs),
                 queue := env.lsPending.getD [],
                 isInitialized := true,
                 flushTimer := some st.config.flushIntervalMs },
       { env with lsUserId := some (uidOf env now ru),
                  ssSessionId := some (sidOf env now rs) }) := by
  obtain ⟨lsU, ssS, lsP, lsA, sio⟩ := env
  simp only at hio
  subst hio
  cases lsU <;> cases ssS <;>
    simp [Tracker.init, Tracker.initSession, Tracker.initFinish,
      uidOf, sidOf, hini]

/-- C7: identity is idempotent.  With working storage, a first init on a
fresh engine resolves both identifiers (a stored value is returned
unchanged; a missing value is generated as prefix_millis_randomhex and
persisted), a second init on a fresh engine over the resulting stores
returns the same userId and sessionId whatever timestamp and randomness
it sees, and a third init after only the session store is cleared keeps
the userId and regenerates the sessionId, which therefore changes
whenever the fresh token differs from the old one. -/
theorem identity_idempotent (e r f : String) (env : Env)
    (n1 n2 n3 : Nat) (ru1 rs1 ru2 rs2 ru3 rs3 : String)
    (hio : env.setItemOk = true) :
    ∃ st1 env1 st2 env2 st3 env3,
      Tracker.init (Tracker.new e r f) env n1 ru1 rs1 = .ok (st1, env1) ∧
      Tracker.init (Tracker.new e r f) env1 n2 ru2 rs2 = .ok (st2, env2) ∧
      Tracker.init (Tracker.new e r f) { env1 with ssSessionId := none }
          n3 ru3 rs3 = .ok (st3, env3) ∧
      st2.userId = st1.userId ∧
      st2.sessionId = st1.sessionId ∧
      (env.lsUserId.isSome →
        st1.userId = env.lsUserId ∧ env1.lsUserId = env.lsUserId) ∧
      (env.lsUserId = none →
        st1.userId = some ("user_" ++ toString n1 ++ "_" ++ ru1) ∧
        env1.lsUserId = st1.userId) ∧
      (env.ssSessionId.isSome →
        st1.sessionId = env.ssSessionId ∧ env1.ssSessionId = env.ssSessionId) ∧
      (env.ssSessionId = none →
        st1.sessionId = some ("sess_" ++ toString n1 ++ "_" ++ rs1) ∧
        env1.ssSessionId = st1.sessionId) ∧
      st3.userId = st1.userId ∧
      st3.sessionId = some ("sess_" ++ toString n3 ++ "_" ++ rs3) ∧
      (st1.sessionId ≠ some ("sess_" ++ toString n3 ++ "_" ++ rs3) →
        st3.sessionId ≠ st1.sessionId) := by
  have h1 := init_spec (Tracker.new e r f) env n1 ru1 rs1 rfl hio
  have h2 := init_spec (Tracker.new e r f)
    { env with lsUserId := some (uidOf env n1 ru1),
               ssSessionId := some (sidOf env n1 rs1) } n2 ru2 rs2 rfl
    (by simpa using hio)
  have h3 := init_spec (Tracker.new e r f)
    { { env with lsUserId := some (uidOf env n1 ru1),
                 ssSessionId := some (sidOf env n1 rs1) }
      with ssSessionId := none } n3 ru3 rs3 rfl (by simpa using hio)
  refine ⟨_, _, _, _, _, _, h1, h2, h3, ?_, ?_, ?_, ?_, ?_, ?_, ?_, ?_, ?_⟩
  · simp [uidOf]
  · simp [sidOf]
  · intro hu
    obtain ⟨u, hu⟩ := Option.isSome_iff_exists.mp hu
    simp [uidOf, hu]
  · intro hu
    simp [uidOf, hu]
  · intro hs
    obtain ⟨s, hs⟩ := Option.isSome_iff_exists.mp hs
    simp [sidOf, hs]
  · intro hs
    simp [sidOf, hs]
  · simp [uidOf]
  · simp [sidOf]
  · intro hner hcontra
    apply hner
    rw [← hcontra]
    simp [sidOf]

/-- Whenever init succeeds on an uninitialized engine, both identifiers
come out non-null: every successful path assigns some stored or generated
token. -/
theorem init_ids (st : TrackerState) (env : Env) (now : Nat) (ru rs : String)
    (st' : TrackerState) (env' : Env) (hini : st.isInitialized = false)
    (h : Tracker.init st env now ru rs = .ok (st', env')) :
    st'.userId.isSome ∧ st'.sessionId.isSome := by
  cases hu : env.lsUserId <;> cases hs : env.ssSessionId <;>
      cases hok : env.setItemOk <;>
      simp [Tracker.init, Tracker.initSession, Tracker.initFinish,
        hini, hu, hs, hok] at h <;>
      obtain ⟨h1, h2⟩ := h <;> subst h1 <;> simp

/-- flush never touches the identity fields, whichever transport branch
it takes. -/
theorem flush_ids (st : TrackerState) (env : Env) (prim fb : JsVal → Bool)
    (st' : TrackerState) (env' : Env)
    (h : Tracker.flush st env prim fb = .ok (st', env')) :
    st'.userId = st.userId ∧ st'.sessionId = st.sessionId := by
  unfold Tracker.flush at h
  split at h
  · injection h with h'
    cases h'
    exact ⟨rfl, rfl⟩
  · dsimp only at h
    split at h
    · injection h with h'
      cases h'
      exact ⟨rfl, rfl⟩
    · injection h with h'
      have h1 : st' = (Tracker.fallbackLoop fb (Tracker.takeBatch st env).1
          (Tracker.takeBatch st env).2.1 (Tracker.takeBatch st env).2.2).1 :=
        congrArg Prod.fst h'.symm
      rw [h1]
      exact fallbackLoop_ids fb _ _ _

/-- C10: before init has run, getUserId and getSessionId return null (the
constructor sets both fields to null); a successful init — or a track
call, whose auto-init ran it — leaves both non-null; and flush, the only
other queue operation, never resets them. -/
theorem ids_null_before_init_then_stable (e r f : String) (env : Env)
    (n : Nat) (ru rs : String) (st1 : TrackerState) (env1 : Env)
    (h1 : Tracker.init (Tracker.new e r f) env n ru rs = .ok (st1, env1))
    (ev : String) (props : List (String × JsVal)) (ctx : Context)
    (ts : String) (n2 : Nat) (ru2 rs2 : String) (st2 : TrackerState)
    (env2 : Env) (b : Bool)
    (h2 : Tracker.track (Tracker.new e r f) env ev props ctx ts n2 ru2 rs2
            = .ok (st2, env2, b))
    (prim fb : JsVal → Bool) (st3 : TrackerState) (env3 : Env)
    (h3 : Tracker.flush st1 env1 prim fb = .ok (st3, env3)) :
    Tracker.getUserId (Tracker.new e r f) = none ∧
    Tracker.getSessionId (Tracker.new e r f) = none ∧
    (Tracker.getUserId st1).isSome ∧ (Tracker.getSessionId st1).isSome ∧
    (Tracker.getUserId st2).isSome ∧ (Tracker.getSessionId st2).isSome ∧
    Tracker.getUserId st3 = Tracker.getUserId st1 ∧
    Tracker.getSessionId st3 = Tracker.getSessionId st1 := by
  have hids1 := init_ids (Tracker.new e r f) env n ru rs st1 env1 rfl h1
  have hflu := flush_ids st1 env1 prim fb st3 env3 h3
  unfold Tracker.track at h2
  cases hI : Tracker.init (Tracker.new e r f) env n2 ru2 rs2 with
  | error u =>
      rw [show (if (Tracker.new e r f).isInitialized then
            Except.ok (Tracker.new e r f, env)
          else Tracker.init (Tracker.new e r f) env n2 ru2 rs2)
          = Tracker.init (Tracker.new e r f) env n2 ru2 rs2 from rfl,
        hI] at h2
      exact absurd h2 (by simp)
  | ok p =>
      obtain ⟨stI, envI⟩ := p
      rw [show (if (Tracker.new e r f).isInitialized then
            Except.ok (Tracker.new e r f, env)
          else Tracker.init (Tracker.new e r f) env n2 ru2 rs2)
          = Tracker.init (Tracker.new e r f) env n2 ru2 rs2 from rfl,
        hI] at h2
      have hidsI := init_ids (Tracker.new e r f) env n2 ru2 rs2 stI envI rfl hI
      injection h2 with h2'
      have h2a : st2 = { stI with queue := stI.queue ++
          [{ event := ev, ts := ts, userId := stI.userId,
             sessionId := stI.sessionId, page := ctx.page, url := ctx.url,
             referrer := ctx.referrer, userAgent := ctx.userAgent,
             screen := ctx.screen, viewport := ctx.viewport, utm := ctx.utm,
             userAttributes := Tracker.getUserAttrs envI,
             properties := props }] } :=
        (congrArg Prod.fst h2').symm
      refine ⟨rfl, rfl, hids1.1, hids1.2, ?_, ?_, hflu.1, hflu.2⟩
      · rw [h2a]; exact hidsI.1
      · rw [h2a]; exact hidsI.2

/-- init succeeds whenever storage writes work, or both identifiers are
already persisted (then init performs no write), or the engine was
already initialized (then init returns immediately). -/
theorem init_isOk (st : TrackerState) (env : Env) (now : Nat)
    (ru rs : String)
    (h : env.setItemOk = true ∨ (env.lsUserId.isSome ∧ env.ssSessionId.isSome)) :
    ∃ p, Tracker.init st env now ru rs = .ok p := by
  by_cases hini : st.isInitialized = true
  · exact ⟨(st, env), by simp [Tracker.init, hini]⟩
  · have hini' : st.isInitialized = false := by simpa using hini
    rcases h with hio | ⟨hu, hs⟩
    · exact ⟨_, init_spec st env now ru rs hini' hio⟩
    · obtain ⟨u, hu⟩ := Option.isSome_iff_exists.mp hu
      obtain ⟨s, hs⟩ := Option.isSome_iff_exists.mp hs
      refine ⟨Tracker.initFinish
        { st with userId := some u, sessionId := some s } env, ?_⟩
      simp [Tracker.init, Tracker.initSession, hini', hu, hs]

/-- C6 counterexample: on an uninitialized engine with empty identity
stores and failing storage writes, track raises — the auto-init path hits
the unguarded localStorage.setItem for the generated userId, and the
exception escapes track to the caller. -/
theorem track_raises_on_uninit_persist_failure :
    Tracker.track (Tracker.new "e" "r" "f") envNoStore "click" [] ctx0 "t"
      0 "aa" "bb" = .error () := rfl

/-- C6 amended: track returns normally whenever the engine is already
initialized, or storage writes succeed, or both identifiers are already
persisted (auto-init then writes nothing); inside track itself, enqueue
swallows any queue-persistence failure and no transport failure is
surfaced (the result does not depend on any send outcome). -/
theorem track_returns_normally (st : TrackerState) (env : Env) (ev : String)
    (props : List (String × JsVal)) (ctx : Context) (ts : String) (n : Nat)
    (ru rs : String)
    (h : st.isInitialized = true ∨ env.setItemOk = true ∨
         (env.lsUserId.isSome ∧ env.ssSessionId.isSome)) :
    ∃ out, Tracker.track st env ev props ctx ts n ru rs = .ok out := by
  unfold Tracker.track
  by_cases hini : st.isInitialized = true
  · rw [if_pos hini]
    exact ⟨_, rfl⟩
  · obtain ⟨p, hp⟩ := init_isOk st env n ru rs (h.resolve_left hini)
    obtain ⟨stI, envI⟩ := p
    rw [if_neg hini, hp]
    exact ⟨_, rfl⟩

/-- C9: setUserAttributes persists the shallow merge of the stored
attribute map with attrs, then enqueues a user_attributes record whose
properties are the attributes object wrapping the raw attrs, and — the
merge having been persisted before the record is built — the record's
userAttributes snapshot is already the merged map. -/
theorem setUserAttributes_enqueues_merged (st : TrackerState) (env : Env)
    (attrs : List (String × JsVal)) (ctx : Context) (ts : String) (n : Nat)
    (ru rs : String) (hini : st.isInitialized = true)
    (hio : env.setItemOk = true) :
    (let payload : EventRecord :=
      { event := "user_attributes", ts := ts, userId := st.userId,
        sessionId := st.sessionId, page := ctx.page, url := ctx.url,
        referrer := ctx.referrer, userAgent := ctx.userAgent,
        screen := ctx.screen, viewport := ctx.viewport, utm := ctx.utm,
        userAttributes := jsAssign (Tracker.getUserAttrs env) attrs,
        properties := [("attributes", JsVal.obj attrs)] };
    Tracker.setUserAttributes st env attrs ctx ts n ru rs = .ok
      ({ st with queue := st.queue ++ [payload] },
       { env with
          lsUserAttrs := some (jsAssign (Tracker.getUserAttrs env) attrs),
          lsPending := some (st.queue ++ [payload]) },
       decide (st.config.maxBatchSize ≤ (st.queue ++ [payload]).length))) := by
  simp [Tracker.setUserAttributes, Tracker.track, hini, hio,
    Tracker.persistQueue, Tracker.getUserAttrs]

/-- C8 amended: configure performs the shallow per-key merge on the
config object — a present key overrides, an absent key keeps its value —
and the merged flush interval, batch size and retry bound are the values
the engine reads (the flush timer installed by init, the batch taken by
flush); but the backoff base is an instance field outside the config
object: configure leaves it unchanged and the retry scheduler always arms
with that fixed field. -/
theorem configure_merges_per_key_but_not_backoff (st : TrackerState)
    (opts : ConfigOpts) (env : Env) (n : Nat) (ru rs : String)
    (hini : st.isInitialized = false) (hio : env.setItemOk = true)
    (hrt : st.retryTimer = false) :
    (Tracker.configure st opts).config.flushIntervalMs
        = opts.flushIntervalMs.getD st.config.flushIntervalMs ∧
    (Tracker.configure st opts).config.maxBatchSize
        = opts.maxBatchSize.getD st.config.maxBatchSize ∧
    (Tracker.configure st opts).config.maxRetries
        = opts.maxRetries.getD st.config.maxRetries ∧
    (Tracker.configure st opts).backoffBase = st.backoffBase ∧
    (Tracker.scheduleRetry (Tracker.configure st opts)).scheduledDelays
        = st.scheduledDelays ++ [st.backoffBase] ∧
    (Tracker.takeBatch (Tracker.configure st opts) env).1
        = st.queue.take (opts.maxBatchSize.getD st.config.maxBatchSize) ∧
    (∃ st' env', Tracker.init (Tracker.configure st opts) env n ru rs
        = .ok (st', env') ∧
      st'.flushTimer
        = some (opts.flushIntervalMs.getD st.config.flushIntervalMs)) := by
  refine ⟨rfl, rfl, rfl, rfl, ?_, rfl, ?_⟩
  · simp [Tracker.scheduleRetry, Tracker.configure, hrt]
  · exact ⟨_, _, init_spec (Tracker.configure st opts) env n ru rs hini hio,
      rfl⟩

/-! ## Witnesses: the claim theorems applied at concrete inputs -/

/-- Empty identity stores with working writes. -/
def envEmptyOk : Env :=
  { lsUserId := none, ssSessionId := none, lsPending := none,
    lsUserAttrs := none, setItemOk := true }

/-- The tracker state produced by a first init over envOk. -/
def stW1 : TrackerState :=
  { Tracker.new "e" "r" "f" with
      userId := some "u",
      sessionId := some "s",
      isInitialized := true,
      flushTimer := some 5000 }

/-- The record a concrete track call builds over envOk and ctx0. -/
def recW : EventRecord :=
  { event := "click", ts := "t", userId := some "u", sessionId := some "s",
    page := "/p", url := "http://x/p", referrer := "", userAgent := "ua",
    screen := .obj [], viewport := .obj [], utm := .obj [],
    userAttributes := [], properties := [] }

/-- stW1 after that track call enqueued recW. -/
def stW2 : TrackerState :=
  { stW1 with queue := [recW] }

/-- envOk after that track call persisted the queue. -/
def envW2 : Env :=
  { envOk with lsPending := some [recW] }

theorem takeBatch_removes_and_persists_before_send_w :
    (stC1.queue ≠ [] ∧ envC1.setItemOk = true) ∧
    ((Tracker.takeBatch stC1 envC1).1
        = stC1.queue.take stC1.config.maxBatchSize ∧
     (Tracker.takeBatch stC1 envC1).2.1.queue
        = stC1.queue.drop stC1.config.maxBatchSize ∧
     (Tracker.takeBatch stC1 envC1).2.2.lsPending
        = some (stC1.queue.drop stC1.config.maxBatchSize) ∧
     (Tracker.takeBatch (Tracker.takeBatch stC1 envC1).2.1
        (Tracker.takeBatch stC1 envC1).2.2).1
        = (stC1.queue.drop stC1.config.maxBatchSize).take
            stC1.config.maxBatchSize ∧
     (Tracker.takeBatch stC1 envC1).1
       ++ ((Tracker.takeBatch (Tracker.takeBatch stC1 envC1).2.1
             (Tracker.takeBatch stC1 envC1).2.2).1
           ++ (Tracker.takeBatch (Tracker.takeBatch stC1 envC1).2.1
                 (Tracker.takeBatch stC1 envC1).2.2).2.1.queue)
        = stC1.queue) :=
  ⟨⟨fun h => List.noConfusion h, rfl⟩,
   takeBatch_removes_and_persists_before_send stC1 envC1
     (fun h => List.noConfusion h) rfl⟩

theorem flush_fallback_and_requeue_w :
    (stC1.queue ≠ [] ∧ envC1.setItemOk = true) ∧
    (∃ st' env', Tracker.flush stC1 envC1 pFail pFail = .ok (st', env') ∧
      (pFail (flushBody (JsVal.arr
            ((stC1.queue.take stC1.config.maxBatchSize).map recordToJson)))
          = true →
          st'.queue = stC1.queue.drop stC1.config.maxBatchSize ∧
          st'.fallbackSends = stC1.fallbackSends ∧
          st'.retryTimer = stC1.retryTimer ∧
          env'.lsPending = some st'.queue) ∧
      (pFail (flushBody (JsVal.arr
            ((stC1.queue.take stC1.config.maxBatchSize).map recordToJson)))
          = false →
          st'.queue = stC1.queue.drop stC1.config.maxBatchSize
              ++ failedOf pFail (stC1.queue.take stC1.config.maxBatchSize) ∧
          st'.fallbackSends = stC1.fallbackSends
              ++ (stC1.queue.take stC1.config.maxBatchSize).map
                  Tracker.singleJson ∧
          env'.lsPending = some st'.queue ∧
          (failedOf pFail (stC1.queue.take stC1.config.maxBatchSize) = [] →
              st'.retryTimer = stC1.retryTimer) ∧
          (failedOf pFail (stC1.queue.take stC1.config.maxBatchSize) ≠ [] →
              st'.retryTimer = true))) :=
  ⟨⟨fun h => List.noConfusion h, rfl⟩,
   flush_fallback_and_requeue stC1 envC1 pFail pFail
     (fun h => List.noConfusion h) rfl⟩

theorem track_returns_normally_w :
    (stC1.isInitialized = true ∨ envOk.setItemOk = true ∨
        (envOk.lsUserId.isSome ∧ envOk.ssSessionId.isSome)) ∧
    (∃ out, Tracker.track stC1 envOk "click" [] ctx0 "t" 0 "aa" "bb"
        = .ok out) :=
  ⟨Or.inl rfl,
   track_returns_normally stC1 envOk "click" [] ctx0 "t" 0 "aa" "bb"
     (Or.inl rfl)⟩

theorem identity_idempotent_w :
    envEmptyOk.setItemOk = true ∧
    (∃ st1 env1 st2 env2 st3 env3,
      Tracker.init (Tracker.new "e" "r" "f") envEmptyOk 1 "aa" "bb"
        = .ok (st1, env1) ∧
      Tracker.init (Tracker.new "e" "r" "f") env1 2 "cc" "dd"
        = .ok (st2, env2) ∧
      Tracker.init (Tracker.new "e" "r" "f") { env1 with ssSessionId := none }
          3 "ee" "ff" = .ok (st3, env3) ∧
      st2.userId = st1.userId ∧
      st2.sessionId = st1.sessionId ∧
      (envEmptyOk.lsUserId.isSome →
        st1.userId = envEmptyOk.lsUserId ∧
        env1.lsUserId = envEmptyOk.lsUserId) ∧
      (envEmptyOk.lsUserId = none →
        st1.userId = some ("user_" ++ toString 1 ++ "_" ++ "aa") ∧
        env1.lsUserId = st1.userId) ∧
      (envEmptyOk.ssSessionId.isSome →
        st1.sessionId = envEmptyOk.ssSessionId ∧
        env1.ssSessionId = envEmptyOk.ssSessionId) ∧
      (envEmptyOk.ssSessionId = none →
        st1.sessionId = some ("sess_" ++ toString 1 ++ "_" ++ "bb") ∧
        env1.ssSessionId = st1.sessionId) ∧
      st3.userId = st1.userId ∧
      st3.sessionId = some ("sess_" ++ toString 3 ++ "_" ++ "ff") ∧
      (st1.sessionId ≠ some ("sess_" ++ toString 3 ++ "_" ++ "ff") →
        st3.sessionId ≠ st1.sessionId)) :=
  ⟨rfl,
   identity_idempotent "e" "r" "f" envEmptyOk 1 2 3 "aa" "bb" "cc" "dd"
     "ee" "ff" rfl⟩

theorem configure_merges_per_key_but_not_backoff_w :
    ((Tracker.new "e" "r" "f").isInitialized = false ∧
     envEmptyOk.setItemOk = true ∧
     (Tracker.new "e" "r" "f").retryTimer = false) ∧
    ((Tracker.configure (Tracker.new "e" "r" "f")
        { flushIntervalMs := some 7000, maxBatchSize := some 2,
          backoffBase := some 5000 }).config.flushIntervalMs
        = (some 7000).getD (Tracker.new "e" "r" "f").config.flushIntervalMs ∧
     (Tracker.configure (Tracker.new "e" "r" "f")
        { flushIntervalMs := some 7000, maxBatchSize := some 2,
          backoffBase := some 5000 }).config.maxBatchSize
        = (some 2).getD (Tracker.new "e" "r" "f").config.maxBatchSize ∧
     (Tracker.configure (Tracker.new "e" "r" "f")
        { flushIntervalMs := some 7000, maxBatchSize := some 2,
          backoffBase := some 5000 }).config.maxRetries
        = (none : Option Nat).getD (Tracker.new "e" "r" "f").config.maxRetries ∧
     (Tracker.configure (Tracker.new "e" "r" "f")
        { flushIntervalMs := some 7000, maxBatchSize := some 2,
          backoffBase := some 5000 }).backoffBase
        = (Tracker.new "e" "r" "f").backoffBase ∧
     (Tracker.scheduleRetry (Tracker.configure (Tracker.new "e" "r" "f")
        { flushIntervalMs := some 7000, maxBatchSize := some 2,
          backoffBase := some 5000 })).scheduledDelays
        = (Tracker.new "e" "r" "f").scheduledDelays
            ++ [(Tracker.new "e" "r" "f").backoffBase] ∧
     (Tracker.takeBatch (Tracker.configure (Tracker.new "e" "r" "f")
        { flushIntervalMs := some 7000, maxBatchSize := some 2,
          backoffBase := some 5000 }) envEmptyOk).1
        = (Tracker.new "e" "r" "f").queue.take
            ((some 2).getD (Tracker.new "e" "r" "f").config.maxBatchSize) ∧
     (∃ st' env', Tracker.init (Tracker.configure (Tracker.new "e" "r" "f")
          { flushIntervalMs := some 7000, maxBatchSize := some 2,
            backoffBase := some 5000 }) envEmptyOk 1 "aa" "bb"
          = .ok (st', env') ∧
        st'.flushTimer
          = some ((some 7000).getD
              (Tracker.new "e" "r" "f").config.flushIntervalMs))) :=
  ⟨⟨rfl, rfl, rfl⟩,
   configure_merges_per_key_but_not_backoff (Tracker.new "e" "r" "f")
     { flushIntervalMs := some 7000, maxBatchSize := some 2,
       backoffBase := some 5000 } envEmptyOk 1 "aa" "bb" rfl rfl rfl⟩

theorem setUserAttributes_enqueues_merged_w :
    (stC1.isInitialized = true ∧ envOk.setItemOk = true) ∧
    (let payload : EventRecord :=
      { event := "user_attributes", ts := "t", userId := stC1.userId,
        sessionId := stC1.sessionId, page := ctx0.page, url := ctx0.url,
        referrer := ctx0.referrer, userAgent := ctx0.userAgent,
        screen := ctx0.screen, viewport := ctx0.viewport, utm := ctx0.utm,
        userAttributes := jsAssign (Tracker.getUserAttrs envOk)
          [("plan", JsVal.str "pro")],
        properties := [("attributes",
          JsVal.obj [("plan", JsVal.str "pro")])] };
    Tracker.setUserAttributes stC1 envOk [("plan", JsVal.str "pro")] ctx0 "t"
        1 "aa" "bb" = .ok
      ({ stC1 with queue := stC1.queue ++ [payload] },
       { envOk with
          lsUserAttrs := some (jsAssign (Tracker.getUserAttrs envOk)
            [("plan", JsVal.str "pro")]),
          lsPending := some (stC1.queue ++ [payload]) },
       decide (stC1.config.maxBatchSize ≤ (stC1.queue ++ [payload]).length))) :=
  ⟨⟨rfl, rfl⟩,
   setUserAttributes_enqueues_merged stC1 envOk [("plan", JsVal.str "pro")]
     ctx0 "t" 1 "aa" "bb" rfl rfl⟩

theorem ids_null_before_init_then_stable_w :
    (Tracker.init (Tracker.new "e" "r" "f") envOk 1 "aa" "bb"
        = .ok (stW1, envOk) ∧
     Tracker.track (Tracker.new "e" "r" "f") envOk "click" [] ctx0 "t"
        2 "cc" "dd" = .ok (stW2, envW2, false) ∧
     Tracker.flush stW1 envOk pFail pFail = .ok (stW1, envOk)) ∧
    (Tracker.getUserId (Tracker.new "e" "r" "f") = none ∧
     Tracker.getSessionId (Tracker.new "e" "r" "f") = none ∧
     (Tracker.getUserId stW1).isSome ∧ (Tracker.getSessionId stW1).isSome ∧
     (Tracker.getUserId stW2).isSome ∧ (Tracker.getSessionId stW2).isSome ∧
     Tracker.getUserId stW1 = Tracker.getUserId stW1 ∧
     Tracker.getSessionId stW1 = Tracker.getSessionId stW1) :=
  ⟨⟨rfl, rfl, rfl⟩,
   ids_null_before_init_then_stable "e" "r" "f" envOk 1 "aa" "bb" stW1 envOk
     rfl "click" [] ctx0 "t" 2 "cc" "dd" stW2 envW2 false rfl pFail pFail
     stW1 envOk rfl⟩
